import Mathlib

/-!
Verification of the forstream user service (`src/services/user.js`).

The service exposes `getUser`, `updateUser`, `updateUserImage`,
`signInWithGoogle` and `signInWithFacebook`.  We give a shallow embedding:

* a `UserRec` structure mirrors the `User` model's fields used by the
  service (`first_name`, `last_name`, `email`, `google_id`, `facebook_id`,
  `image_url`, `registration_date`) plus the record `id`;
* the storage layer (`queries.find` / `queries.get` / `save`) is a list of
  user records together with a fresh-id counter; `find` with
  `require: false` is `List.find?`, `save` replaces the record with the
  same id, or appends a new record;
* the avatar pipeline (`files.downloadFileFromUrl`,
  `files.uploadUserImage`) and its possible failures are parameters of
  type `String → Except String String` resp.
  `UserRec → String → Except String String`;
* each operation returns the call outcome (`Except` of an error code or
  the resulting user) together with the storage state after the call,
  so frame and failure-atomicity properties are statable.

The OAuth exchange is an external collaborator: the sign-in functions are
embedded from the point where the verified provider profile is in hand
(`profile.data` for Google, `profile` for Facebook).
-/

/-- The fields of a stored `User` record that the service reads or writes.
`none` models an absent (undefined) field. -/
structure UserRec where
  id : Nat
  first_name : Option String
  last_name : Option String
  email : Option String
  google_id : Option String
  facebook_id : Option String
  image_url : Option String
  registration_date : Nat
deriving Repr, DecidableEq

/-- The storage state: the persisted user records and a counter supplying
fresh record ids. -/
structure DB where
  users : List UserRec
  nextId : Nat
deriving Repr, DecidableEq

/-- Persisting a record (`user.save()`): a record whose id is already
present replaces the stored record with that id; a new record is appended
and the fresh-id counter advances. -/
def DB.save (db : DB) (u : UserRec) : DB :=
  if db.users.any (fun v => v.id == u.id) then
    { db with users := db.users.map (fun v => if v.id == u.id then u else v) }
  else
    { users := db.users ++ [u], nextId := db.nextId + 1 }

/-- Well-formed storage: record ids are pairwise distinct and below the
fresh-id counter. -/
def DB.wf (db : DB) : Prop :=
  (db.users.map (fun u => u.id)).Nodup ∧ ∀ u ∈ db.users, u.id < db.nextId

instance (db : DB) : Decidable db.wf := by
  unfold DB.wf
  exact inferInstance

/-- The `queries.find` lookup on the email field with require false:
first stored record with the given email, or `none`. -/
def findByEmail (db : DB) (email : String) : Option UserRec :=
  db.users.find? (fun u => u.email == some email)

/-- The `queries.find` lookup on the google_id field with require false. -/
def findByGoogleId (db : DB) (gid : String) : Option UserRec :=
  db.users.find? (fun u => u.google_id == some gid)

/-- The `queries.find` lookup on the facebook_id field with require false. -/
def findByFacebookId (db : DB) (fid : String) : Option UserRec :=
  db.users.find? (fun u => u.facebook_id == some fid)

/-- `queries.get(User, id)`: the stored record with the given id; a
missing record is a fatal error for the call. -/
def queriesGet (db : DB) (id : Nat) : Except String UserRec :=
  match db.users.find? (fun u => u.id == id) with
  | some u => .ok u
  | none => .error "not_found"

/-- One step of `user.set(attrs)`: assign a known model path from a
string value; an unknown path is ignored. -/
def setAttr (u : UserRec) (kv : String × String) : UserRec :=
  match kv.1 with
  | "first_name" => { u with first_name := some kv.2 }
  | "last_name" => { u with last_name := some kv.2 }
  | "email" => { u with email := some kv.2 }
  | "google_id" => { u with google_id := some kv.2 }
  | "facebook_id" => { u with facebook_id := some kv.2 }
  | "image_url" => { u with image_url := some kv.2 }
  | _ => u

/-- `user.set(attrs)` for an attribute object given as key/value pairs. -/
def setAttrs (u : UserRec) (attrs : List (String × String)) : UserRec :=
  attrs.foldl setAttr u

/-- `ALLOWED_ATTRS_TO_UPDATE = ['first_name', 'last_name', 'email']`. -/
def ALLOWED_ATTRS_TO_UPDATE : List String := ["first_name", "last_name", "email"]

/-- `_.pick(data, keys)`: the key/value pairs of `data` whose key is in
`keys`. -/
def pick (data : List (String × String)) (keys : List String) : List (String × String) :=
  data.filter (fun kv => keys.contains kv.1)

/-- `!x || _.isEmpty(x)` for a possibly-absent string field: absent or
empty. -/
def isAbsentOrEmpty : Option String → Bool
  | none => true
  | some s => s.isEmpty

/-- `validateUser(user)`: throws the field-specific error code for the
first of `first_name`, `last_name`, `email` that is absent or empty. -/
def validateUser (user : UserRec) : Except String Unit :=
  if isAbsentOrEmpty user.first_name then .error "first_name_required"
  else if isAbsentOrEmpty user.last_name then .error "last_name_required"
  else if isAbsentOrEmpty user.email then .error "email_required"
  else .ok ()

/-- `updateUser(user, data)`: pick the allow-listed attributes, load the
stored record, merge, validate, then save.  Returns the call outcome and
the storage state after the call. -/
def updateUser (db : DB) (userId : Nat) (data : List (String × String)) :
    Except String UserRec × DB :=
  let attrs := pick data ALLOWED_ATTRS_TO_UPDATE
  match queriesGet db userId with
  | .error e => (.error e, db)
  | .ok loadedUser =>
    let loadedUser := setAttrs loadedUser attrs
    match validateUser loadedUser with
    | .error e => (.error e, db)
    | .ok _ => (.ok loadedUser, db.save loadedUser)

/-- The Google profile data the sign-in flow reads
(`profile.data.id/email/given_name/family_name/picture`). -/
structure GoogleProfileData where
  id : String
  email : String
  given_name : String
  family_name : String
  picture : String
deriving Repr, DecidableEq

/-- The Facebook profile data the sign-in flow reads (`profile.id`,
`profile.email`, `profile.first_name`, `profile.last_name`, and
`picture_data_url` standing for `profile.picture.data.url`). -/
structure FacebookProfile where
  id : String
  email : String
  first_name : String
  last_name : String
  picture_data_url : String
deriving Repr, DecidableEq

/-- The record built by the `new User` constructor call in the Google
creation branch, before avatar ingestion. -/
def newGoogleUser (now : Nat) (db : DB) (p : GoogleProfileData) : UserRec :=
  { id := db.nextId
    first_name := some p.given_name
    last_name := some p.family_name
    email := some p.email
    google_id := some p.id
    facebook_id := none
    image_url := none
    registration_date := now }

/-- The record built by the `new User` constructor call in the Facebook
creation branch. -/
def newFacebookUser (now : Nat) (db : DB) (p : FacebookProfile) : UserRec :=
  { id := db.nextId
    first_name := some p.first_name
    last_name := some p.last_name
    email := some p.email
    google_id := none
    facebook_id := some p.id
    image_url := none
    registration_date := now }

/-- The creation branch of `signInWithGoogle`: download the avatar,
upload it against the fresh record, set `image_url`, then save.  A
download or upload failure aborts the call before any persist. -/
def createGoogleUser (download : String → Except String String)
    (upload : UserRec → String → Except String String)
    (now : Nat) (db : DB) (p : GoogleProfileData) :
    Except String UserRec × DB :=
  let user := newGoogleUser now db p
  match download p.picture with
  | .error e => (.error e, db)
  | .ok imagePath =>
    match upload user imagePath with
    | .error e => (.error e, db)
    | .ok imageUrl =>
      let user := setAttrs user [("image_url", imageUrl)]
      (.ok user, db.save user)

/-- The creation branch of `signInWithFacebook`. -/
def createFacebookUser (download : String → Except String String)
    (upload : UserRec → String → Except String String)
    (now : Nat) (db : DB) (p : FacebookProfile) :
    Except String UserRec × DB :=
  let user := newFacebookUser now db p
  match download p.picture_data_url with
  | .error e => (.error e, db)
  | .ok imagePath =>
    match upload user imagePath with
    | .error e => (.error e, db)
    | .ok imageUrl =>
      let user := setAttrs user [("image_url", imageUrl)]
      (.ok user, db.save user)

/-- `signInWithGoogle`, from the point where the verified Google profile
is in hand: find by email (link and save on a hit), else find by
`google_id` (return unchanged on a hit), else create. -/
def signInWithGoogle (download : String → Except String String)
    (upload : UserRec → String → Except String String)
    (now : Nat) (db : DB) (p : GoogleProfileData) :
    Except String UserRec × DB :=
  match findByEmail db p.email with
  | some user =>
    let user := setAttrs user [("google_id", p.id)]
    (.ok user, db.save user)
  | none =>
    match findByGoogleId db p.id with
    | some user => (.ok user, db)
    | none => createGoogleUser download upload now db p

/-- `signInWithFacebook`, from the point where the verified Facebook
profile is in hand. -/
def signInWithFacebook (download : String → Except String String)
    (upload : UserRec → String → Except String String)
    (now : Nat) (db : DB) (p : FacebookProfile) :
    Except String UserRec × DB :=
  match findByEmail db p.email with
  | some user =>
    let user := setAttrs user [("facebook_id", p.id)]
    (.ok user, db.save user)
  | none =>
    match findByFacebookId db p.id with
    | some user => (.ok user, db)
    | none => createFacebookUser download upload now db p

/-! ## Basic facts about the embedded storage operations -/

lemma replace_preserves_id (u v : UserRec) :
    (if v.id == u.id then u else v).id = v.id := by
  by_cases h : v.id = u.id <;> simp [h]

lemma ids_map_replace (l : List UserRec) (u : UserRec) :
    (l.map (fun v => if v.id == u.id then u else v)).map (fun v => v.id) =
      l.map (fun v => v.id) := by
  rw [List.map_map]
  exact List.map_congr_left fun v _ => replace_preserves_id u v

lemma find?_map_replace (q : UserRec → Bool) (u a : UserRec) :
    ∀ l : List UserRec, l.find? q = some a →
      (l.map (fun v => v.id)).Nodup → u.id = a.id → q u = true →
      (l.map (fun v => if v.id == u.id then u else v)).find? q = some u := by
  intro l
  induction l with
  | nil => intro h; simp at h
  | cons hd t ih =>
    intro hfind hnodup hid hq
    by_cases hhd : q hd
    · have ha : a = hd := by
        rw [List.find?_cons_of_pos _ hhd] at hfind
        exact (Option.some_inj.1 hfind).symm
      have hrep : (hd.id == u.id) = true := by simp [hid, ha]
      simp only [List.map_cons, hrep, if_true]
      exact List.find?_cons_of_pos _ hq
    · have hfind' : t.find? q = some a := by
        rwa [List.find?_cons_of_neg _ hhd] at hfind
      have hat : a ∈ t := List.mem_of_find?_eq_some hfind'
      have hne : ¬ hd.id = u.id := by
        intro hcontra
        have : a.id ∈ t.map (fun v => v.id) := List.mem_map_of_mem _ hat
        have : hd.id ∈ t.map (fun v => v.id) := by rw [hcontra, hid]; exact this
        simp only [List.map_cons, List.nodup_cons] at hnodup
        exact hnodup.1 this
      have hrep : (hd.id == u.id) = false := by simp [hne]
      simp only [List.map_cons, hrep, Bool.false_eq_true, if_false]
      rw [List.find?_cons_of_neg _ hhd]
      exact ih hfind' (by simp only [List.map_cons, List.nodup_cons] at hnodup; exact hnodup.2)
        hid hq

lemma map_replace_self (l : List UserRec) (a : UserRec)
    (hnodup : (l.map (fun v => v.id)).Nodup) (ha : a ∈ l) :
    l.map (fun v => if v.id == a.id then a else v) = l := by
  have hinj := List.inj_on_of_nodup_map hnodup
  conv_rhs => rw [← List.map_id l]
  apply List.map_congr_left
  intro v hv
  by_cases h : v.id = a.id
  · have : v = a := hinj hv ha h
    simp [this]
  · simp [h]

lemma save_replace_eq (db : DB) (u a : UserRec) (ha : a ∈ db.users)
    (hid : u.id = a.id) :
    db.save u =
      { db with users := db.users.map (fun v => if v.id == u.id then u else v) } := by
  unfold DB.save
  have hany : db.users.any (fun v => v.id == u.id) = true := by
    rw [List.any_eq_true]
    exact ⟨a, ha, by simp [hid]⟩
  simp [hany]

lemma save_append_eq (db : DB) (u : UserRec)
    (hlt : ∀ v ∈ db.users, v.id < db.nextId) (hid : u.id = db.nextId) :
    db.save u = { users := db.users ++ [u], nextId := db.nextId + 1 } := by
  unfold DB.save
  have hany : db.users.any (fun v => v.id == u.id) = false := by
    rw [List.any_eq_false]
    intro v hv
    simp only [beq_iff_eq, hid]
    exact Nat.ne_of_lt (hlt v hv)
  simp [hany]

lemma save_self_eq (db : DB) (u : UserRec) (hu : u ∈ db.users)
    (hnodup : (db.users.map (fun v => v.id)).Nodup) :
    db.save u = db := by
  rw [save_replace_eq db u u hu rfl, map_replace_self db.users u hnodup hu]

lemma wf_save_replace (db : DB) (u a : UserRec) (hwf : db.wf)
    (ha : a ∈ db.users) (hid : u.id = a.id) : (db.save u).wf := by
  rw [save_replace_eq db u a ha hid]
  constructor
  · show ((db.users.map (fun v => if v.id == u.id then u else v)).map
      (fun v => v.id)).Nodup
    rw [ids_map_replace]
    exact hwf.1
  · intro w hw
    obtain ⟨v, hv, rfl⟩ := List.mem_map.1 hw
    by_cases h : v.id = u.id
    · simp only [h, beq_self_eq_true, if_true]
      calc u.id = a.id := hid
        _ < db.nextId := hwf.2 a ha
    · simp only [beq_iff_eq, h, if_false]
      exact hwf.2 v hv

lemma wf_save_append (db : DB) (u : UserRec) (hwf : db.wf)
    (hid : u.id = db.nextId) : (db.save u).wf := by
  rw [save_append_eq db u hwf.2 hid]
  constructor
  · show ((db.users ++ [u]).map (fun v => v.id)).Nodup
    rw [List.map_append]
    rw [List.nodup_append]
    refine ⟨hwf.1, by simp, ?_⟩
    intro x hx hx2
    obtain ⟨v, hv, rfl⟩ := List.mem_map.1 hx
    simp only [List.map_cons, List.map_nil, List.mem_singleton] at hx2
    rw [hid] at hx2
    exact absurd (hwf.2 v hv) (by omega)
  · intro w hw
    rcases List.mem_append.1 hw with h | h
    · exact Nat.lt_succ_of_lt (hwf.2 w h)
    · rw [List.mem_singleton.1 h, hid]; exact Nat.lt_succ_self _

lemma set_google_id_self (u : UserRec) (g : String) (h : u.google_id = some g) :
    setAttrs u [("google_id", g)] = u := by
  cases u
  simp only [setAttrs, setAttr, List.foldl_cons, List.foldl_nil] at h ⊢
  simp_all

lemma set_facebook_id_self (u : UserRec) (f : String) (h : u.facebook_id = some f) :
    setAttrs u [("facebook_id", f)] = u := by
  cases u
  simp only [setAttrs, setAttr, List.foldl_cons, List.foldl_nil] at h ⊢
  simp_all

/-! ## Concrete fixtures used by witnesses and counterexamples -/

/-- An avatar download stub that always succeeds. -/
def dlOk : String → Except String String := fun url => .ok (String.append "local/" url)

/-- An avatar upload stub that always succeeds with a non-empty URL. -/
def ulOk : UserRec → String → Except String String :=
  fun _ path => .ok (String.append "cdn/" path)

/-- An avatar download stub that always fails. -/
def dlBad : String → Except String String := fun _ => .error "download_failed"

/-- An avatar upload stub that always fails. -/
def ulBad : UserRec → String → Except String String := fun _ _ => .error "upload_failed"

/-- A stored account linked to Google id g1 and Facebook id f1. -/
def uAnn : UserRec :=
  { id := 1, first_name := some "Ann", last_name := some "Lee"
    email := some "ann@x.com", google_id := some "g1", facebook_id := some "f1"
    image_url := some "img1", registration_date := 10 }

/-- A second stored account linked to Google id g2 and Facebook id f2. -/
def uBob : UserRec :=
  { id := 2, first_name := some "Bob", last_name := some "Day"
    email := some "bob@x.com", google_id := some "g2", facebook_id := some "f2"
    image_url := some "img2", registration_date := 20 }

/-- A two-account storage state. -/
def dbW : DB := { users := [uAnn, uBob], nextId := 3 }

/-- A Google profile whose email matches `uAnn` while its external id
matches `uBob`. -/
def gpBoth : GoogleProfileData :=
  { id := "g2", email := "ann@x.com", given_name := "Ann", family_name := "Lee"
    picture := "picA" }

/-- A Facebook profile whose email matches `uAnn` while its external id
matches `uBob`. -/
def fpBoth : FacebookProfile :=
  { id := "f2", email := "ann@x.com", first_name := "Ann", last_name := "Lee"
    picture_data_url := "picA" }

/-- A Google profile matching `uBob` by external id only. -/
def gpExt : GoogleProfileData :=
  { id := "g2", email := "zed@x.com", given_name := "Zed", family_name := "Quo"
    picture := "picZ" }

/-- A Facebook profile matching `uBob` by external id only. -/
def fpExt : FacebookProfile :=
  { id := "f2", email := "zed@x.com", first_name := "Zed", last_name := "Quo"
    picture_data_url := "picZ" }

/-- A Google profile matching no stored account. -/
def gpNew : GoogleProfileData :=
  { id := "g9", email := "new@x.com", given_name := "New", family_name := "Kid"
    picture := "picN" }

/-- A Facebook profile matching no stored account. -/
def fpNew : FacebookProfile :=
  { id := "f9", email := "new@x.com", first_name := "New", last_name := "Kid"
    picture_data_url := "picN" }

/-! ## Claims -/

/-- C1: on each sign-in, the lookups run in a fixed order with first
match winning: by email first (the linking branch), then by the
provider's external id (returned as-is), else the creation branch; in
particular an email match is returned even when an external-id match
exists as well. -/
theorem C1_resolution_order (download : String → Except String String)
    (upload : UserRec → String → Except String String) (now : Nat) (db : DB)
    (gp : GoogleProfileData) (fp : FacebookProfile) :
    ((∀ a, findByEmail db gp.email = some a →
        signInWithGoogle download upload now db gp =
          (.ok (setAttrs a [("google_id", gp.id)]),
            db.save (setAttrs a [("google_id", gp.id)]))) ∧
      (findByEmail db gp.email = none → ∀ b, findByGoogleId db gp.id = some b →
        signInWithGoogle download upload now db gp = (.ok b, db)) ∧
      (findByEmail db gp.email = none → findByGoogleId db gp.id = none →
        signInWithGoogle download upload now db gp =
          createGoogleUser download upload now db gp)) ∧
    ((∀ a, findByEmail db fp.email = some a →
        signInWithFacebook download upload now db fp =
          (.ok (setAttrs a [("facebook_id", fp.id)]),
            db.save (setAttrs a [("facebook_id", fp.id)]))) ∧
      (findByEmail db fp.email = none → ∀ b, findByFacebookId db fp.id = some b →
        signInWithFacebook download upload now db fp = (.ok b, db)) ∧
      (findByEmail db fp.email = none → findByFacebookId db fp.id = none →
        signInWithFacebook download upload now db fp =
          createFacebookUser download upload now db fp)) := by
  refine ⟨⟨?_, ?_, ?_⟩, ?_, ?_, ?_⟩
  · intro a ha
    simp [signInWithGoogle, ha]
  · intro h1 b hb
    simp [signInWithGoogle, h1, hb]
  · intro h1 h2
    simp [signInWithGoogle, h1, h2]
  · intro a ha
    simp [signInWithFacebook, ha]
  · intro h1 b hb
    simp [signInWithFacebook, h1, hb]
  · intro h1 h2
    simp [signInWithFacebook, h1, h2]

/-- Witness for C1: a storage state where the profile's email matches one
account and its external id matches another; the email match is the one
linked and returned, for both providers. -/
theorem C1_resolution_order_witness :
    signInWithGoogle dlOk ulOk 0 dbW gpBoth =
      (.ok (setAttrs uAnn [("google_id", "g2")]),
        dbW.save (setAttrs uAnn [("google_id", "g2")])) ∧
    signInWithFacebook dlOk ulOk 0 dbW fpBoth =
      (.ok (setAttrs uAnn [("facebook_id", "f2")]),
        dbW.save (setAttrs uAnn [("facebook_id", "f2")])) :=
  ⟨(C1_resolution_order dlOk ulOk 0 dbW gpBoth fpBoth).1.1 uAnn (by decide),
    (C1_resolution_order dlOk ulOk 0 dbW gpBoth fpBoth).2.1 uAnn (by decide)⟩

/-- C5: a profile matching no email but matching an account by external
id returns that account unchanged and performs no write at all: the
storage state after the call is exactly the state before. -/
theorem C5_extid_match_no_mutation (download : String → Except String String)
    (upload : UserRec → String → Except String String) (now : Nat) (db : DB)
    (gp : GoogleProfileData) (fp : FacebookProfile) :
    (findByEmail db gp.email = none → ∀ b, findByGoogleId db gp.id = some b →
      signInWithGoogle download upload now db gp = (.ok b, db)) ∧
    (findByEmail db fp.email = none → ∀ b, findByFacebookId db fp.id = some b →
      signInWithFacebook download upload now db fp = (.ok b, db)) := by
  constructor
  · intro h1 b hb
    simp [signInWithGoogle, h1, hb]
  · intro h1 b hb
    simp [signInWithFacebook, h1, hb]

/-- Witness for C5: a profile matching `uBob` by external id only is
returned as stored, with the storage state untouched, for both
providers. -/
theorem C5_extid_match_no_mutation_witness :
    signInWithGoogle dlOk ulOk 0 dbW gpExt = (.ok uBob, dbW) ∧
    signInWithFacebook dlOk ulOk 0 dbW fpExt = (.ok uBob, dbW) :=
  ⟨(C5_extid_match_no_mutation dlOk ulOk 0 dbW gpExt fpExt).1 (by decide) uBob (by decide),
    (C5_extid_match_no_mutation dlOk ulOk 0 dbW gpExt fpExt).2 (by decide) uBob (by decide)⟩

/-- C9: the linking step on an email match touches only the signing-in
provider's external-id field of the matched account; every other field,
including the other provider's external id, keeps its stored value and is
not refreshed from the incoming profile. -/
theorem C9_email_link_touches_only_provider_id
    (download : String → Except String String)
    (upload : UserRec → String → Except String String) (now : Nat) (db : DB)
    (gp : GoogleProfileData) (fp : FacebookProfile) :
    (∀ a, findByEmail db gp.email = some a →
      signInWithGoogle download upload now db gp =
        (.ok (setAttrs a [("google_id", gp.id)]),
          db.save (setAttrs a [("google_id", gp.id)])) ∧
      (setAttrs a [("google_id", gp.id)]).google_id = some gp.id ∧
      (setAttrs a [("google_id", gp.id)]).id = a.id ∧
      (setAttrs a [("google_id", gp.id)]).first_name = a.first_name ∧
      (setAttrs a [("google_id", gp.id)]).last_name = a.last_name ∧
      (setAttrs a [("google_id", gp.id)]).email = a.email ∧
      (setAttrs a [("google_id", gp.id)]).facebook_id = a.facebook_id ∧
      (setAttrs a [("google_id", gp.id)]).image_url = a.image_url ∧
      (setAttrs a [("google_id", gp.id)]).registration_date = a.registration_date) ∧
    (∀ a, findByEmail db fp.email = some a →
      signInWithFacebook download upload now db fp =
        (.ok (setAttrs a [("facebook_id", fp.id)]),
          db.save (setAttrs a [("facebook_id", fp.id)])) ∧
      (setAttrs a [("facebook_id", fp.id)]).facebook_id = some fp.id ∧
      (setAttrs a [("facebook_id", fp.id)]).id = a.id ∧
      (setAttrs a [("facebook_id", fp.id)]).first_name = a.first_name ∧
      (setAttrs a [("facebook_id", fp.id)]).last_name = a.last_name ∧
      (setAttrs a [("facebook_id", fp.id)]).email = a.email ∧
      (setAttrs a [("facebook_id", fp.id)]).google_id = a.google_id ∧
      (setAttrs a [("facebook_id", fp.id)]).image_url = a.image_url ∧
      (setAttrs a [("facebook_id", fp.id)]).registration_date = a.registration_date) := by
  constructor
  · intro a ha
    exact ⟨by simp [signInWithGoogle, ha], rfl, rfl, rfl, rfl, rfl, rfl, rfl, rfl⟩
  · intro a ha
    exact ⟨by simp [signInWithFacebook, ha], rfl, rfl, rfl, rfl, rfl, rfl, rfl, rfl⟩

/-- Witness for C9: linking `uAnn` on an email match keeps every stored
field but the signing-in provider's external id, for both providers. -/
theorem C9_email_link_touches_only_provider_id_witness :
    (signInWithGoogle dlOk ulOk 0 dbW gpBoth =
      (.ok (setAttrs uAnn [("google_id", "g2")]),
        dbW.save (setAttrs uAnn [("google_id", "g2")])) ∧
      (setAttrs uAnn [("google_id", "g2")]).facebook_id = uAnn.facebook_id) ∧
    (signInWithFacebook dlOk ulOk 0 dbW fpBoth =
      (.ok (setAttrs uAnn [("facebook_id", "f2")]),
        dbW.save (setAttrs uAnn [("facebook_id", "f2")])) ∧
      (setAttrs uAnn [("facebook_id", "f2")]).google_id = uAnn.google_id) :=
  ⟨⟨((C9_email_link_touches_only_provider_id dlOk ulOk 0 dbW gpBoth fpBoth).1
        uAnn (by decide)).1,
      ((C9_email_link_touches_only_provider_id dlOk ulOk 0 dbW gpBoth fpBoth).1
        uAnn (by decide)).2.2.2.2.2.2.1⟩,
    ⟨((C9_email_link_touches_only_provider_id dlOk ulOk 0 dbW gpBoth fpBoth).2
        uAnn (by decide)).1,
      ((C9_email_link_touches_only_provider_id dlOk ulOk 0 dbW gpBoth fpBoth).2
        uAnn (by decide)).2.2.2.2.2.2.1⟩⟩

/-- C3: in the creation branch, a failing avatar download or upload makes
the whole call fail with that error while the storage state after the
call is exactly the state before: no account record is persisted. -/
theorem C3_ingestion_failure_is_atomic (download : String → Except String String)
    (upload : UserRec → String → Except String String) (now : Nat) (db : DB)
    (gp : GoogleProfileData) (fp : FacebookProfile) :
    (findByEmail db gp.email = none → findByGoogleId db gp.id = none →
      (∀ e, download gp.picture = .error e →
        signInWithGoogle download upload now db gp = (.error e, db)) ∧
      (∀ path e, download gp.picture = .ok path →
        upload (newGoogleUser now db gp) path = .error e →
        signInWithGoogle download upload now db gp = (.error e, db))) ∧
    (findByEmail db fp.email = none → findByFacebookId db fp.id = none →
      (∀ e, download fp.picture_data_url = .error e →
        signInWithFacebook download upload now db fp = (.error e, db)) ∧
      (∀ path e, download fp.picture_data_url = .ok path →
        upload (newFacebookUser now db fp) path = .error e →
        signInWithFacebook download upload now db fp = (.error e, db))) := by
  constructor
  · intro h1 h2
    constructor
    · intro e he
      simp [signInWithGoogle, createGoogleUser, h1, h2, he]
    · intro path e hpath he
      simp [signInWithGoogle, createGoogleUser, h1, h2, hpath, he]
  · intro h1 h2
    constructor
    · intro e he
      simp [signInWithFacebook, createFacebookUser, h1, h2, he]
    · intro path e hpath he
      simp [signInWithFacebook, createFacebookUser, h1, h2, hpath, he]

/-- Witness for C3: a failing download (Google) and a failing upload
(Facebook) both leave the two-account storage state untouched. -/
theorem C3_ingestion_failure_is_atomic_witness :
    signInWithGoogle dlBad ulOk 0 dbW gpNew = (.error "download_failed", dbW) ∧
    signInWithFacebook dlOk ulBad 0 dbW fpNew = (.error "upload_failed", dbW) :=
  ⟨((C3_ingestion_failure_is_atomic dlBad ulOk 0 dbW gpNew fpNew).1 (by decide)
      (by decide)).1 "download_failed" rfl,
    ((C3_ingestion_failure_is_atomic dlOk ulBad 0 dbW gpNew fpNew).2 (by decide)
      (by decide)).2 "local/picN" "upload_failed" rfl rfl⟩

/-- A Google profile whose email matches `uAnn` but whose external id
differs from `uAnn`'s stored Google id g1. -/
def gpOver : GoogleProfileData :=
  { id := "gX", email := "ann@x.com", given_name := "Ann", family_name := "Lee"
    picture := "picA" }

/-- Counterexample to C4: `uAnn` already holds Google external id g1, yet
a Google sign-in whose profile email matches `uAnn` and whose external id
is gX replaces the stored g1 by gX in storage. -/
theorem C4_counterexample :
    (uAnn ∈ dbW.users ∧ uAnn.google_id = some "g1" ∧ ("gX" : String) ≠ "g1") ∧
    ((signInWithGoogle dlOk ulOk 0 dbW gpOver).2.users.find?
        (fun u => u.id == uAnn.id)).map (fun u => u.google_id) =
      some (some "gX") := by
  decide

/-- C4 amended: a reconciliation that finds the account by external id
never mutates the stored external id (no write at all happens); but a
reconciliation that finds the account by email unconditionally sets the
signing-in provider's external-id field to the incoming profile's
external id, replacing any previously stored different value. -/
theorem C4_extid_overwrite_amended (download : String → Except String String)
    (upload : UserRec → String → Except String String) (now : Nat) (db : DB)
    (gp : GoogleProfileData) (fp : FacebookProfile) :
    ((findByEmail db gp.email = none → ∀ b, findByGoogleId db gp.id = some b →
        signInWithGoogle download upload now db gp = (.ok b, db)) ∧
      (∀ a, findByEmail db gp.email = some a →
        signInWithGoogle download upload now db gp =
          (.ok (setAttrs a [("google_id", gp.id)]),
            db.save (setAttrs a [("google_id", gp.id)])) ∧
        (setAttrs a [("google_id", gp.id)]).google_id = some gp.id)) ∧
    ((findByEmail db fp.email = none → ∀ b, findByFacebookId db fp.id = some b →
        signInWithFacebook download upload now db fp = (.ok b, db)) ∧
      (∀ a, findByEmail db fp.email = some a →
        signInWithFacebook download upload now db fp =
          (.ok (setAttrs a [("facebook_id", fp.id)]),
            db.save (setAttrs a [("facebook_id", fp.id)])) ∧
        (setAttrs a [("facebook_id", fp.id)]).facebook_id = some fp.id)) := by
  refine ⟨⟨?_, ?_⟩, ?_, ?_⟩
  · intro h1 b hb
    simp [signInWithGoogle, h1, hb]
  · intro a ha
    exact ⟨by simp [signInWithGoogle, ha], rfl⟩
  · intro h1 b hb
    simp [signInWithFacebook, h1, hb]
  · intro a ha
    exact ⟨by simp [signInWithFacebook, ha], rfl⟩

/-- Witness for the amended C4: the external-id branch returns `uBob`
without any write, and the email branch overwrites `uAnn`'s stored Google
id with the profile's id gX. -/
theorem C4_extid_overwrite_amended_witness :
    signInWithGoogle dlOk ulOk 0 dbW gpExt = (.ok uBob, dbW) ∧
    signInWithGoogle dlOk ulOk 0 dbW gpOver =
      (.ok (setAttrs uAnn [("google_id", "gX")]),
        dbW.save (setAttrs uAnn [("google_id", "gX")])) :=
  ⟨(C4_extid_overwrite_amended dlOk ulOk 0 dbW gpExt fpExt).1.1 (by decide)
      uBob (by decide),
    ((C4_extid_overwrite_amended dlOk ulOk 0 dbW gpOver fpExt).1.2 uAnn
      (by decide)).1⟩

lemma setAttr_allowed_frame (u : UserRec) (kv : String × String)
    (h : kv.1 ∈ ALLOWED_ATTRS_TO_UPDATE) :
    (setAttr u kv).id = u.id ∧ (setAttr u kv).google_id = u.google_id ∧
    (setAttr u kv).facebook_id = u.facebook_id ∧
    (setAttr u kv).image_url = u.image_url ∧
    (setAttr u kv).registration_date = u.registration_date := by
  obtain ⟨k, v⟩ := kv
  simp only [ALLOWED_ATTRS_TO_UPDATE, List.mem_cons, List.mem_singleton] at h
  rcases h with rfl | rfl | h
  · simp [setAttr]
  · simp [setAttr]
  · rcases h with rfl | h
    · simp [setAttr]
    · simp at h

lemma setAttrs_allowed_frame :
    ∀ (attrs : List (String × String)) (u : UserRec),
      (∀ kv ∈ attrs, kv.1 ∈ ALLOWED_ATTRS_TO_UPDATE) →
      (setAttrs u attrs).id = u.id ∧ (setAttrs u attrs).google_id = u.google_id ∧
      (setAttrs u attrs).facebook_id = u.facebook_id ∧
      (setAttrs u attrs).image_url = u.image_url ∧
      (setAttrs u attrs).registration_date = u.registration_date := by
  intro attrs
  induction attrs with
  | nil => intro u _; simp [setAttrs]
  | cons kv t ih =>
    intro u h
    have h1 := setAttr_allowed_frame u kv (h kv (List.mem_cons_self kv t))
    have h2 := ih (setAttr u kv) (fun x hx => h x (List.mem_cons_of_mem kv hx))
    simp only [setAttrs, List.foldl_cons] at h2 ⊢
    exact ⟨h2.1.trans h1.1, h2.2.1.trans h1.2.1, h2.2.2.1.trans h1.2.2.1,
      h2.2.2.2.1.trans h1.2.2.2.1, h2.2.2.2.2.trans h1.2.2.2.2⟩

lemma pick_keys_mem (data : List (String × String)) (keys : List String) :
    ∀ kv ∈ pick data keys, kv.1 ∈ keys := by
  intro kv hkv
  unfold pick at hkv
  have := List.of_mem_filter hkv
  simpa using this

/-- C7: `updateUser` validates the merged record before any persist, in
the order first name, last name, email, failing with the field-specific
error code and leaving the storage state exactly as it was. -/
theorem C7_validation_before_persist (db : DB) (uid : Nat)
    (data : List (String × String)) (u : UserRec)
    (hget : queriesGet db uid = .ok u) :
    (isAbsentOrEmpty (setAttrs u (pick data ALLOWED_ATTRS_TO_UPDATE)).first_name =
        true →
      updateUser db uid data = (.error "first_name_required", db)) ∧
    (isAbsentOrEmpty (setAttrs u (pick data ALLOWED_ATTRS_TO_UPDATE)).first_name =
        false →
      isAbsentOrEmpty (setAttrs u (pick data ALLOWED_ATTRS_TO_UPDATE)).last_name =
        true →
      updateUser db uid data = (.error "last_name_required", db)) ∧
    (isAbsentOrEmpty (setAttrs u (pick data ALLOWED_ATTRS_TO_UPDATE)).first_name =
        false →
      isAbsentOrEmpty (setAttrs u (pick data ALLOWED_ATTRS_TO_UPDATE)).last_name =
        false →
      isAbsentOrEmpty (setAttrs u (pick data ALLOWED_ATTRS_TO_UPDATE)).email =
        true →
      updateUser db uid data = (.error "email_required", db)) := by
  refine ⟨?_, ?_, ?_⟩ <;> intros <;> simp [updateUser, hget, validateUser, *]

/-- Witness for C7: a patch holding only an empty first name fails with
the first-name error code and persists nothing. -/
theorem C7_validation_before_persist_witness :
    updateUser dbW 1 [("first_name", "")] = (.error "first_name_required", dbW) :=
  (C7_validation_before_persist dbW 1 [("first_name", "")] uAnn rfl).1 (by decide)

/-- C8: `updateUser` applies only the allow-listed attributes of the
patch: the merged record keeps the stored id, provider external ids,
image URL and registration date untouched, and when the merged record
validates, the call succeeds and persists exactly that merged record. -/
theorem C8_allowlist_filter (db : DB) (uid : Nat)
    (data : List (String × String)) (u : UserRec)
    (hget : queriesGet db uid = .ok u) :
    (setAttrs u (pick data ALLOWED_ATTRS_TO_UPDATE)).id = u.id ∧
    (setAttrs u (pick data ALLOWED_ATTRS_TO_UPDATE)).google_id = u.google_id ∧
    (setAttrs u (pick data ALLOWED_ATTRS_TO_UPDATE)).facebook_id = u.facebook_id ∧
    (setAttrs u (pick data ALLOWED_ATTRS_TO_UPDATE)).image_url = u.image_url ∧
    (setAttrs u (pick data ALLOWED_ATTRS_TO_UPDATE)).registration_date =
      u.registration_date ∧
    (validateUser (setAttrs u (pick data ALLOWED_ATTRS_TO_UPDATE)) = .ok () →
      updateUser db uid data =
        (.ok (setAttrs u (pick data ALLOWED_ATTRS_TO_UPDATE)),
          db.save (setAttrs u (pick data ALLOWED_ATTRS_TO_UPDATE)))) := by
  have hframe := setAttrs_allowed_frame (pick data ALLOWED_ATTRS_TO_UPDATE) u
    (pick_keys_mem data ALLOWED_ATTRS_TO_UPDATE)
  refine ⟨hframe.1, hframe.2.1, hframe.2.2.1, hframe.2.2.2.1, hframe.2.2.2.2, ?_⟩
  intro hval
  simp [updateUser, hget, hval]

/-- Witness for C8: a patch with a non-allow-listed attribute (role) and
a new first name succeeds, changes only the first name, and leaves the
stored Google external id untouched. -/
theorem C8_allowlist_filter_witness :
    (setAttrs uAnn (pick [("role", "admin"), ("first_name", "Anne")]
        ALLOWED_ATTRS_TO_UPDATE)).google_id = uAnn.google_id ∧
    updateUser dbW 1 [("role", "admin"), ("first_name", "Anne")] =
      (.ok (setAttrs uAnn (pick [("role", "admin"), ("first_name", "Anne")]
          ALLOWED_ATTRS_TO_UPDATE)),
        dbW.save (setAttrs uAnn (pick [("role", "admin"), ("first_name", "Anne")]
          ALLOWED_ATTRS_TO_UPDATE))) :=
  ⟨(C8_allowlist_filter dbW 1 [("role", "admin"), ("first_name", "Anne")] uAnn
      rfl).2.1,
    (C8_allowlist_filter dbW 1 [("role", "admin"), ("first_name", "Anne")] uAnn
      rfl).2.2.2.2.2 rfl⟩

/-- C2: when neither the email nor the provider external id matches any
stored account and avatar ingestion succeeds, the sign-in persists
exactly one new account, appended to storage, whose names and email come
from the profile, whose external-id field for the originating provider is
the profile's external id, whose image URL is the ingested avatar URL
(non-empty when the pipeline yields a non-empty URL), and whose
registration date is set at creation time. -/
theorem C2_creates_exactly_one_account (download : String → Except String String)
    (upload : UserRec → String → Except String String) (now : Nat) (db : DB)
    (gp : GoogleProfileData) (fp : FacebookProfile)
    (hid : ∀ u ∈ db.users, u.id < db.nextId) :
    (findByEmail db gp.email = none → findByGoogleId db gp.id = none →
      ∀ imagePath imageUrl, download gp.picture = .ok imagePath →
        upload (newGoogleUser now db gp) imagePath = .ok imageUrl →
        imageUrl ≠ "" →
        ∃ u2, signInWithGoogle download upload now db gp =
            (.ok u2, { users := db.users ++ [u2], nextId := db.nextId + 1 }) ∧
          u2.first_name = some gp.given_name ∧
          u2.last_name = some gp.family_name ∧
          u2.email = some gp.email ∧ u2.google_id = some gp.id ∧
          u2.facebook_id = none ∧
          u2.image_url = some imageUrl ∧ imageUrl ≠ "" ∧
          u2.registration_date = now) ∧
    (findByEmail db fp.email = none → findByFacebookId db fp.id = none →
      ∀ imagePath imageUrl, download fp.picture_data_url = .ok imagePath →
        upload (newFacebookUser now db fp) imagePath = .ok imageUrl →
        imageUrl ≠ "" →
        ∃ u2, signInWithFacebook download upload now db fp =
            (.ok u2, { users := db.users ++ [u2], nextId := db.nextId + 1 }) ∧
          u2.first_name = some fp.first_name ∧
          u2.last_name = some fp.last_name ∧
          u2.email = some fp.email ∧ u2.facebook_id = some fp.id ∧
          u2.google_id = none ∧
          u2.image_url = some imageUrl ∧ imageUrl ≠ "" ∧
          u2.registration_date = now) := by
  constructor
  · intro h1 h2 imagePath imageUrl hdl hup hne
    refine ⟨setAttrs (newGoogleUser now db gp) [("image_url", imageUrl)], ?_,
      rfl, rfl, rfl, rfl, rfl, rfl, hne, rfl⟩
    have hsave := save_append_eq db
      (setAttrs (newGoogleUser now db gp) [("image_url", imageUrl)]) hid rfl
    simp [signInWithGoogle, createGoogleUser, h1, h2, hdl, hup, hsave]
  · intro h1 h2 imagePath imageUrl hdl hup hne
    refine ⟨setAttrs (newFacebookUser now db fp) [("image_url", imageUrl)], ?_,
      rfl, rfl, rfl, rfl, rfl, rfl, hne, rfl⟩
    have hsave := save_append_eq db
      (setAttrs (newFacebookUser now db fp) [("image_url", imageUrl)]) hid rfl
    simp [signInWithFacebook, createFacebookUser, h1, h2, hdl, hup, hsave]

/-- Witness for C2: a profile matching nothing in the two-account state
creates exactly one appended account for each provider. -/
theorem C2_creates_exactly_one_account_witness :
    (∃ u2, signInWithGoogle dlOk ulOk 42 dbW gpNew =
        (.ok u2, { users := dbW.users ++ [u2], nextId := dbW.nextId + 1 }) ∧
      u2.first_name = some gpNew.given_name ∧
      u2.last_name = some gpNew.family_name ∧
      u2.email = some gpNew.email ∧ u2.google_id = some gpNew.id ∧
      u2.facebook_id = none ∧
      u2.image_url = some "cdn/local/picN" ∧ ("cdn/local/picN" : String) ≠ "" ∧
      u2.registration_date = 42) ∧
    (∃ u2, signInWithFacebook dlOk ulOk 42 dbW fpNew =
        (.ok u2, { users := dbW.users ++ [u2], nextId := dbW.nextId + 1 }) ∧
      u2.first_name = some fpNew.first_name ∧
      u2.last_name = some fpNew.last_name ∧
      u2.email = some fpNew.email ∧ u2.facebook_id = some fpNew.id ∧
      u2.google_id = none ∧
      u2.image_url = some "cdn/local/picN" ∧ ("cdn/local/picN" : String) ≠ "" ∧
      u2.registration_date = 42) :=
  ⟨(C2_creates_exactly_one_account dlOk ulOk 42 dbW gpNew fpNew (by decide)).1
      (by decide) (by decide) "local/picN" "cdn/local/picN" rfl rfl (by decide),
    (C2_creates_exactly_one_account dlOk ulOk 42 dbW gpNew fpNew (by decide)).2
      (by decide) (by decide) "local/picN" "cdn/local/picN" rfl rfl (by decide)⟩

lemma signInWithGoogle_idem (download : String → Except String String)
    (upload : UserRec → String → Except String String) (now : Nat) (db : DB)
    (gp : GoogleProfileData) (hwf : db.wf) (u1 : UserRec) (db1 : DB)
    (h : signInWithGoogle download upload now db gp = (.ok u1, db1)) :
    signInWithGoogle download upload now db1 gp = (.ok u1, db1) := by
  cases hfe : findByEmail db gp.email with
  | some a =>
    have hres : signInWithGoogle download upload now db gp =
        (.ok (setAttrs a [("google_id", gp.id)]),
          db.save (setAttrs a [("google_id", gp.id)])) := by
      simp [signInWithGoogle, hfe]
    rw [hres] at h
    have hu : setAttrs a [("google_id", gp.id)] = u1 := by
      have := congrArg Prod.fst h
      simpa using this
    have hdb : db.save (setAttrs a [("google_id", gp.id)]) = db1 :=
      congrArg Prod.snd h
    have hueq : u1.email = a.email := by rw [← hu]; simp [setAttrs, setAttr]
    have huid : u1.id = a.id := by rw [← hu]; simp [setAttrs, setAttr]
    have hugid : u1.google_id = some gp.id := by rw [← hu]; simp [setAttrs, setAttr]
    obtain rfl : db1 = db.save u1 := by rw [← hdb, hu]
    unfold findByEmail at hfe
    have ha_mem : a ∈ db.users := List.mem_of_find?_eq_some hfe
    have hq := List.find?_some hfe
    have hfind2 : findByEmail (db.save u1) gp.email = some u1 := by
      rw [save_replace_eq db u1 a ha_mem huid]
      exact find?_map_replace _ u1 a db.users hfe hwf.1 huid
        (by rw [hueq]; exact hq)
    have hset : setAttrs u1 [("google_id", gp.id)] = u1 :=
      set_google_id_self u1 gp.id hugid
    have hmem2 : u1 ∈ (db.save u1).users := by
      rw [save_replace_eq db u1 a ha_mem huid]
      have heq : (if a.id == u1.id then u1 else a) = u1 := by
        simp [huid]
      have hin : (if (a.id == u1.id) = true then u1 else a) ∈
          db.users.map (fun v => if v.id == u1.id then u1 else v) :=
        List.mem_map_of_mem (fun v => if v.id == u1.id then u1 else v) ha_mem
      rw [heq] at hin
      exact hin
    have hnodup2 : ((db.save u1).users.map (fun v => v.id)).Nodup := by
      rw [save_replace_eq db u1 a ha_mem huid]
      show ((db.users.map (fun v => if v.id == u1.id then u1 else v)).map
        (fun v => v.id)).Nodup
      rw [ids_map_replace]
      exact hwf.1
    have hsave2 : (db.save u1).save u1 = db.save u1 :=
      save_self_eq (db.save u1) u1 hmem2 hnodup2
    simp [signInWithGoogle, hfind2, hset, hsave2]
  | none =>
    cases hfg : findByGoogleId db gp.id with
    | some b =>
      have hres : signInWithGoogle download upload now db gp = (.ok b, db) := by
        simp [signInWithGoogle, hfe, hfg]
      rw [hres] at h
      have hu : b = u1 := by
        have := congrArg Prod.fst h
        simpa using this
      have hdb : db = db1 := congrArg Prod.snd h
      rw [← hdb, ← hu]
      exact hres
    | none =>
      have hres : signInWithGoogle download upload now db gp =
          createGoogleUser download upload now db gp := by
        simp [signInWithGoogle, hfe, hfg]
      rw [hres] at h
      cases hdl : download gp.picture with
      | error e =>
        have hcr : createGoogleUser download upload now db gp = (.error e, db) := by
          simp [createGoogleUser, hdl]
        rw [hcr] at h
        simp at h
      | ok path =>
        cases hup : upload (newGoogleUser now db gp) path with
        | error e =>
          have hcr : createGoogleUser download upload now db gp = (.error e, db) := by
            simp [createGoogleUser, hdl, hup]
          rw [hcr] at h
          simp at h
        | ok url =>
          have hcr : createGoogleUser download upload now db gp =
              (.ok (setAttrs (newGoogleUser now db gp) [("image_url", url)]),
                db.save (setAttrs (newGoogleUser now db gp) [("image_url", url)])) := by
            simp [createGoogleUser, hdl, hup]
          rw [hcr] at h
          have hu : setAttrs (newGoogleUser now db gp) [("image_url", url)] = u1 := by
            have := congrArg Prod.fst h
            simpa using this
          have hdb : db.save
              (setAttrs (newGoogleUser now db gp) [("image_url", url)]) = db1 :=
            congrArg Prod.snd h
          have huid : u1.id = db.nextId := by
            rw [← hu]; simp [setAttrs, setAttr, newGoogleUser]
          have huemail : u1.email = some gp.email := by
            rw [← hu]; simp [setAttrs, setAttr, newGoogleUser]
          have hugid : u1.google_id = some gp.id := by
            rw [← hu]; simp [setAttrs, setAttr, newGoogleUser]
          obtain rfl : db1 = db.save u1 := by rw [← hdb, hu]
          unfold findByEmail at hfe
          have hfind2 : findByEmail (db.save u1) gp.email = some u1 := by
            rw [save_append_eq db u1 hwf.2 huid]
            show (db.users ++ [u1]).find? (fun u => u.email == some gp.email) =
              some u1
            rw [List.find?_append, hfe]
            simp [huemail]
          have hset : setAttrs u1 [("google_id", gp.id)] = u1 :=
            set_google_id_self u1 gp.id hugid
          have hwf2 : (db.save u1).wf := wf_save_append db u1 hwf huid
          have hmem2 : u1 ∈ (db.save u1).users := by
            rw [save_append_eq db u1 hwf.2 huid]
            show u1 ∈ db.users ++ [u1]
            simp
          have hsave2 : (db.save u1).save u1 = db.save u1 :=
            save_self_eq (db.save u1) u1 hmem2 hwf2.1
          simp [signInWithGoogle, hfind2, hset, hsave2]

lemma signInWithFacebook_idem (download : String → Except String String)
    (upload : UserRec → String → Except String String) (now : Nat) (db : DB)
    (fp : FacebookProfile) (hwf : db.wf) (u1 : UserRec) (db1 : DB)
    (h : signInWithFacebook download upload now db fp = (.ok u1, db1)) :
    signInWithFacebook download upload now db1 fp = (.ok u1, db1) := by
  cases hfe : findByEmail db fp.email with
  | some a =>
    have hres : signInWithFacebook download upload now db fp =
        (.ok (setAttrs a [("facebook_id", fp.id)]),
          db.save (setAttrs a [("facebook_id", fp.id)])) := by
      simp [signInWithFacebook, hfe]
    rw [hres] at h
    have hu : setAttrs a [("facebook_id", fp.id)] = u1 := by
      have := congrArg Prod.fst h
      simpa using this
    have hdb : db.save (setAttrs a [("facebook_id", fp.id)]) = db1 :=
      congrArg Prod.snd h
    have hueq : u1.email = a.email := by rw [← hu]; simp [setAttrs, setAttr]
    have huid : u1.id = a.id := by rw [← hu]; simp [setAttrs, setAttr]
    have hufid : u1.facebook_id = some fp.id := by rw [← hu]; simp [setAttrs, setAttr]
    obtain rfl : db1 = db.save u1 := by rw [← hdb, hu]
    unfold findByEmail at hfe
    have ha_mem : a ∈ db.users := List.mem_of_find?_eq_some hfe
    have hq := List.find?_some hfe
    have hfind2 : findByEmail (db.save u1) fp.email = some u1 := by
      rw [save_replace_eq db u1 a ha_mem huid]
      exact find?_map_replace _ u1 a db.users hfe hwf.1 huid
        (by rw [hueq]; exact hq)
    have hset : setAttrs u1 [("facebook_id", fp.id)] = u1 :=
      set_facebook_id_self u1 fp.id hufid
    have hmem2 : u1 ∈ (db.save u1).users := by
      rw [save_replace_eq db u1 a ha_mem huid]
      have heq : (if a.id == u1.id then u1 else a) = u1 := by
        simp [huid]
      have hin : (if (a.id == u1.id) = true then u1 else a) ∈
          db.users.map (fun v => if v.id == u1.id then u1 else v) :=
        List.mem_map_of_mem (fun v => if v.id == u1.id then u1 else v) ha_mem
      rw [heq] at hin
      exact hin
    have hnodup2 : ((db.save u1).users.map (fun v => v.id)).Nodup := by
      rw [save_replace_eq db u1 a ha_mem huid]
      show ((db.users.map (fun v => if v.id == u1.id then u1 else v)).map
        (fun v => v.id)).Nodup
      rw [ids_map_replace]
      exact hwf.1
    have hsave2 : (db.save u1).save u1 = db.save u1 :=
      save_self_eq (db.save u1) u1 hmem2 hnodup2
    simp [signInWithFacebook, hfind2, hset, hsave2]
  | none =>
    cases hfg : findByFacebookId db fp.id with
    | some b =>
      have hres : signInWithFacebook download upload now db fp = (.ok b, db) := by
        simp [signInWithFacebook, hfe, hfg]
      rw [hres] at h
      have hu : b = u1 := by
        have := congrArg Prod.fst h
        simpa using this
      have hdb : db = db1 := congrArg Prod.snd h
      rw [← hdb, ← hu]
      exact hres
    | none =>
      have hres : signInWithFacebook download upload now db fp =
          createFacebookUser download upload now db fp := by
        simp [signInWithFacebook, hfe, hfg]
      rw [hres] at h
      cases hdl : download fp.picture_data_url with
      | error e =>
        have hcr : createFacebookUser download upload now db fp = (.error e, db) := by
          simp [createFacebookUser, hdl]
        rw [hcr] at h
        simp at h
      | ok path =>
        cases hup : upload (newFacebookUser now db fp) path with
        | error e =>
          have hcr : createFacebookUser download upload now db fp = (.error e, db) := by
            simp [createFacebookUser, hdl, hup]
          rw [hcr] at h
          simp at h
        | ok url =>
          have hcr : createFacebookUser download upload now db fp =
              (.ok (setAttrs (newFacebookUser now db fp) [("image_url", url)]),
                db.save (setAttrs (newFacebookUser now db fp) [("image_url", url)])) := by
            simp [createFacebookUser, hdl, hup]
          rw [hcr] at h
          have hu : setAttrs (newFacebookUser now db fp) [("image_url", url)] = u1 := by
            have := congrArg Prod.fst h
            simpa using this
          have hdb : db.save
              (setAttrs (newFacebookUser now db fp) [("image_url", url)]) = db1 :=
            congrArg Prod.snd h
          have huid : u1.id = db.nextId := by
            rw [← hu]; simp [setAttrs, setAttr, newFacebookUser]
          have huemail : u1.email = some fp.email := by
            rw [← hu]; simp [setAttrs, setAttr, newFacebookUser]
          have hufid : u1.facebook_id = some fp.id := by
            rw [← hu]; simp [setAttrs, setAttr, newFacebookUser]
          obtain rfl : db1 = db.save u1 := by rw [← hdb, hu]
          unfold findByEmail at hfe
          have hfind2 : findByEmail (db.save u1) fp.email = some u1 := by
            rw [save_append_eq db u1 hwf.2 huid]
            show (db.users ++ [u1]).find? (fun u => u.email == some fp.email) =
              some u1
            rw [List.find?_append, hfe]
            simp [huemail]
          have hset : setAttrs u1 [("facebook_id", fp.id)] = u1 :=
            set_facebook_id_self u1 fp.id hufid
          have hwf2 : (db.save u1).wf := wf_save_append db u1 hwf huid
          have hmem2 : u1 ∈ (db.save u1).users := by
            rw [save_append_eq db u1 hwf.2 huid]
            show u1 ∈ db.users ++ [u1]
            simp
          have hsave2 : (db.save u1).save u1 = db.save u1 :=
            save_self_eq (db.save u1) u1 hmem2 hwf2.1
          simp [signInWithFacebook, hfind2, hset, hsave2]


/-- A fresh account as created by a Google sign-in of `gpNew` against
`dbW` at time 42. -/
def uNew9 : UserRec :=
  { id := 3, first_name := some "New", last_name := some "Kid"
    email := some "new@x.com", google_id := some "g9", facebook_id := none
    image_url := some "cdn/local/picN", registration_date := 42 }

/-- The storage state after that Google creation. -/
def dbAfterNew : DB := { users := [uAnn, uBob, uNew9], nextId := 4 }

/-- A fresh account as created by a Facebook sign-in of `fpNew` against
`dbW` at time 42. -/
def uNewF9 : UserRec :=
  { id := 3, first_name := some "New", last_name := some "Kid"
    email := some "new@x.com", google_id := none, facebook_id := some "f9"
    image_url := some "cdn/local/picN", registration_date := 42 }

/-- The storage state after that Facebook creation. -/
def dbAfterNewF : DB := { users := [uAnn, uBob, uNewF9], nextId := 4 }

/-- C6: on well-formed storage, running the same provider sign-in twice
in sequence with the same profile returns on the second call the very
account the first call returned, and leaves the storage state exactly as
the first call left it: no duplicate account and no mutation beyond the
first call's linking. -/
theorem C6_sign_in_idempotent (download : String → Except String String)
    (upload : UserRec → String → Except String String) (now : Nat) (db : DB)
    (gp : GoogleProfileData) (fp : FacebookProfile) (hwf : db.wf) :
    (∀ u1 db1, signInWithGoogle download upload now db gp = (.ok u1, db1) →
      signInWithGoogle download upload now db1 gp = (.ok u1, db1)) ∧
    (∀ u1 db1, signInWithFacebook download upload now db fp = (.ok u1, db1) →
      signInWithFacebook download upload now db1 fp = (.ok u1, db1)) :=
  ⟨fun u1 db1 h => signInWithGoogle_idem download upload now db gp hwf u1 db1 h,
    fun u1 db1 h => signInWithFacebook_idem download upload now db fp hwf u1 db1 h⟩

/-- Witness for C6: a creating sign-in against the two-account state,
re-run on the resulting state, returns the created account again and
changes nothing, for both providers. -/
theorem C6_sign_in_idempotent_witness :
    (signInWithGoogle dlOk ulOk 42 dbW gpNew = (.ok uNew9, dbAfterNew) ∧
      signInWithGoogle dlOk ulOk 42 dbAfterNew gpNew = (.ok uNew9, dbAfterNew)) ∧
    (signInWithFacebook dlOk ulOk 42 dbW fpNew = (.ok uNewF9, dbAfterNewF) ∧
      signInWithFacebook dlOk ulOk 42 dbAfterNewF fpNew = (.ok uNewF9, dbAfterNewF)) :=
  ⟨⟨rfl, (C6_sign_in_idempotent dlOk ulOk 42 dbW gpNew fpNew (by decide)).1
      uNew9 dbAfterNew rfl⟩,
    ⟨rfl, (C6_sign_in_idempotent dlOk ulOk 42 dbW gpNew fpNew (by decide)).2
      uNewF9 dbAfterNewF rfl⟩⟩


/-- Swapping the two provider external-id fields of a record: the renaming
under which the Google and Facebook flows are the same algorithm. -/
def swapProvider (u : UserRec) : UserRec :=
  { u with google_id := u.facebook_id, facebook_id := u.google_id }

/-- Swapping the provider fields of every stored record. -/
def swapDB (db : DB) : DB := { db with users := db.users.map swapProvider }

/-- The canonical content of a Facebook profile, read as a Google profile:
same external id, email, names and avatar source URL. -/
def fbAsGoogle (p : FacebookProfile) : GoogleProfileData :=
  { id := p.id, email := p.email, given_name := p.first_name
    family_name := p.last_name, picture := p.picture_data_url }

lemma swapProvider_involutive (u : UserRec) : swapProvider (swapProvider u) = u := by
  cases u
  rfl

lemma swapDB_involutive (db : DB) : swapDB (swapDB db) = db := by
  cases db with
  | mk users nextId =>
    simp only [swapDB, List.map_map]
    have h : users.map (swapProvider ∘ swapProvider) = users.map id :=
      List.map_congr_left fun a _ => swapProvider_involutive a
    rw [h, List.map_id]

lemma swapDB_save (db : DB) (u : UserRec) :
    swapDB (db.save u) = (swapDB db).save (swapProvider u) := by
  have hany : ((swapDB db).users.any (fun v => v.id == (swapProvider u).id)) =
      (db.users.any (fun v => v.id == u.id)) := by
    show ((db.users.map swapProvider).any (fun v => v.id == (swapProvider u).id)) = _
    rw [List.any_map]
    rfl
  unfold DB.save
  rw [hany]
  cases hc : db.users.any (fun v => v.id == u.id) with
  | false =>
    simp only [Bool.false_eq_true, if_false]
    simp [swapDB]
  | true =>
    simp only [if_true]
    simp only [swapDB]
    congr 1
    rw [List.map_map, List.map_map]
    apply List.map_congr_left
    intro v _
    show swapProvider (if v.id == u.id then u else v) =
      (if (swapProvider v).id == (swapProvider u).id then swapProvider u
        else swapProvider v)
    by_cases h : v.id = u.id <;> simp [swapProvider, h]

lemma newGoogleUser_swap (now : Nat) (db : DB) (fp : FacebookProfile) :
    newGoogleUser now (swapDB db) (fbAsGoogle fp) =
      swapProvider (newFacebookUser now db fp) := rfl

lemma findByEmail_swapDB (db : DB) (e : String) :
    findByEmail (swapDB db) e = (findByEmail db e).map swapProvider := by
  show (db.users.map swapProvider).find? (fun u => u.email == some e) = _
  rw [List.find?_map]
  rfl

lemma findByGoogleId_swapDB (db : DB) (g : String) :
    findByGoogleId (swapDB db) g = (findByFacebookId db g).map swapProvider := by
  show (db.users.map swapProvider).find? (fun u => u.google_id == some g) = _
  rw [List.find?_map]
  rfl

lemma setAttrs_facebook_swap (a : UserRec) (i : String) :
    setAttrs a [("facebook_id", i)] =
      swapProvider (setAttrs (swapProvider a) [("google_id", i)]) := by
  cases a
  rfl

lemma setAttrs_image_swap (a : UserRec) (url : String) :
    swapProvider (setAttrs a [("image_url", url)]) =
      setAttrs (swapProvider a) [("image_url", url)] := by
  cases a
  rfl

/-- C10: the two sign-in flows are the same reconciliation algorithm up
to which provider external-id field is read and written: the Facebook
flow equals the Google flow run on the provider-swapped storage with the
same canonical profile content, with the result mapped back through the
swap.  Lookups, branch decisions and written accounts correspond
one-to-one under the swap. -/
theorem C10_provider_equivalence (download : String → Except String String)
    (upload : UserRec → String → Except String String) (now : Nat) (db : DB)
    (fp : FacebookProfile) :
    signInWithFacebook download upload now db fp =
      ((signInWithGoogle download (fun u path => upload (swapProvider u) path) now
          (swapDB db) (fbAsGoogle fp)).1.map swapProvider,
        swapDB (signInWithGoogle download
          (fun u path => upload (swapProvider u) path) now
          (swapDB db) (fbAsGoogle fp)).2) := by
  cases hfe : findByEmail db fp.email with
  | some a =>
    have hg : findByEmail (swapDB db) (fbAsGoogle fp).email = some (swapProvider a) := by
      show findByEmail (swapDB db) fp.email = _
      rw [findByEmail_swapDB, hfe]
      rfl
    simp only [signInWithFacebook, signInWithGoogle, hfe, hg, Except.map]
    rw [swapDB_save, swapDB_involutive, ← setAttrs_facebook_swap]
    rfl
  | none =>
    have hgnone : findByEmail (swapDB db) (fbAsGoogle fp).email = none := by
      show findByEmail (swapDB db) fp.email = _
      rw [findByEmail_swapDB, hfe]
      rfl
    cases hff : findByFacebookId db fp.id with
    | some b =>
      have hg : findByGoogleId (swapDB db) (fbAsGoogle fp).id = some (swapProvider b) := by
        show findByGoogleId (swapDB db) fp.id = _
        rw [findByGoogleId_swapDB, hff]
        rfl
      simp only [signInWithFacebook, signInWithGoogle, hfe, hgnone, hff, hg,
        Except.map]
      rw [swapDB_involutive, swapProvider_involutive]
    | none =>
      have hg : findByGoogleId (swapDB db) (fbAsGoogle fp).id = none := by
        show findByGoogleId (swapDB db) fp.id = _
        rw [findByGoogleId_swapDB, hff]
        rfl
      simp only [signInWithFacebook, signInWithGoogle, hfe, hgnone, hff, hg]
      unfold createFacebookUser createGoogleUser
      rw [newGoogleUser_swap]
      cases hdl : download fp.picture_data_url with
      | error e =>
        have hdl' : download (fbAsGoogle fp).picture = Except.error e := hdl
        rw [hdl']
        simp only [hdl, Except.map]
        rw [swapDB_involutive]
      | ok path =>
        have hdl' : download (fbAsGoogle fp).picture = Except.ok path := hdl
        rw [hdl']
        simp only [hdl]
        rw [swapProvider_involutive]
        cases hup : upload (newFacebookUser now db fp) path with
        | error e =>
          simp [Except.map, swapDB_involutive]
        | ok url =>
          have h2 : swapProvider (setAttrs (swapProvider (newFacebookUser now db fp))
              [("image_url", url)]) =
              setAttrs (newFacebookUser now db fp) [("image_url", url)] := by
            rw [← setAttrs_image_swap, swapProvider_involutive]
          simp [Except.map, swapDB_save, swapDB_involutive, h2]
